import Mathlib

/-!
Shallow embedding of the dm-foto-checker order-status / download pipeline
(`src/check_orders.py` and `src/downloader.py`).

Pure string logic is translated directly.  External effects (the HTTP status
response, filesystem state, the archive download and extraction) are modelled
by explicit environment records passed to the functions, and the side effects a
call performs (network calls, mkdir, file writes, sleeps, printed diagnostics)
are returned as data alongside the function's value.

The emoji string literals in the source file are stored in a mangled encoding
(a mac-roman round trip of the original UTF-8).  The program reads the file as
UTF-8, so the strings it actually operates on are exactly those mangled
codepoint sequences; we reproduce them verbatim with \uXXXX escapes.
-/

namespace DmFoto

/-- The glyph on the "DELIVERED" / success entries (source bytes of line 41). -/
def CHECK_GLYPH : String := "‚úÖ"

/-- The glyph on the "CANCELLED" / failure entries (source bytes of line 42). -/
def CROSS_GLYPH : String := "‚ùå"

/-- The warning glyph used on the "ERROR" entry and on error labels (line 43). -/
def WARN_GLYPH : String := "‚ö†Ô∏è"

/-- The fallback glyph on the "Unknown" entry (source bytes of line 44). -/
def UNKNOWN_GLYPH : String := "‚ùì"

/-- The glyph on the "PROCESSING" entry (source bytes of line 39). -/
def FACTORY_GLYPH : String := "üè≠"

/-- The glyph on the "SHIPPED" entry (source bytes of line 40). -/
def PACKAGE_GLYPH : String := "üì¶"

/-- `REQUEST_DELAY = 0.6` seconds (check_orders.py line 34), as an exact rational. -/
def REQUEST_DELAY : ℚ := 0.6

/-- `DOWNLOADS_DIR = "downloads"` (check_orders.py line 35). -/
def DOWNLOADS_DIR : String := "downloads"

/-- `STATUS_EMOJIS` (check_orders.py lines 38-45).  A Python dict preserves
insertion order, so it is embedded as an ordered association list. -/
def STATUS_EMOJIS : List (String × String) :=
  [("PROCESSING", FACTORY_GLYPH),
   ("SHIPPED", PACKAGE_GLYPH),
   ("DELIVERED", CHECK_GLYPH),
   ("CANCELLED", CROSS_GLYPH),
   ("ERROR", WARN_GLYPH),
   ("Unknown", UNKNOWN_GLYPH)]

/- Kernel-computable models of the Python string primitives the two files use
(`upper`, `lower`, `strip`, `replace` with one-character patterns, `in`, and
truthiness).  They are defined over the character list of the string; unicode
special casing outside ASCII is not modelled (no input in the repository needs
it). -/

/-- Python `ch.upper()` for a single character, ASCII range. -/
def pyCharUpper (c : Char) : Char :=
  if 97 ≤ c.toNat && c.toNat ≤ 122 then Char.ofNat (c.toNat - 32) else c

/-- Python `ch.lower()` for a single character, ASCII range. -/
def pyCharLower (c : Char) : Char :=
  if 65 ≤ c.toNat && c.toNat ≤ 90 then Char.ofNat (c.toNat + 32) else c

/-- Python `s.upper()`. -/
def pyUpper (s : String) : String := ⟨s.data.map pyCharUpper⟩

/-- Python `s.lower()`. -/
def pyLower (s : String) : String := ⟨s.data.map pyCharLower⟩

/-- The characters Python `str.strip()` removes. -/
def pySpace (c : Char) : Bool :=
  c == ' ' || c == '\t' || c == '\n' || c == '\x0d' || c == '\x0b' || c == '\x0c'

/-- Python `s.strip()`. -/
def pyStrip (s : String) : String :=
  ⟨(((s.data.dropWhile pySpace).reverse).dropWhile pySpace).reverse⟩

/-- Python `s.replace(old, "")` for a one-character pattern `old`. -/
def pyRemoveChar (old : Char) (s : String) : String :=
  ⟨s.data.filter (fun c => c != old)⟩

/-- Python `s.replace(old, new)` for one-character `old` and `new`. -/
def pyReplaceChar (old new : Char) (s : String) : String :=
  ⟨s.data.map (fun c => if c == old then new else c)⟩

/-- Python truthiness of a string: non-empty. -/
def pyEmpty (s : String) : Bool := s.data.isEmpty

/-- Python `needle in hay` on lists of characters: contiguous-sublist test. -/
def charsContain (needle : List Char) : List Char → Bool
  | [] => needle.isEmpty
  | c :: t => needle.isPrefixOf (c :: t) || charsContain needle t

/-- Python `needle in hay` on strings. -/
def strContains (hay needle : String) : Bool :=
  charsContain needle.data hay.data

/-- Python `ch in hay` for a single character. -/
def strContainsChar (hay : String) (c : Char) : Bool :=
  hay.data.contains c

/-- The loop condition of `add_status_emoji` (check_orders.py line 59):
`key.lower() in status_code.lower()`. -/
def emojiKeyMatches (status_code key : String) : Bool :=
  strContains (pyLower status_code) (pyLower key)

/-- `add_status_emoji` (check_orders.py lines 47-64): first-match scan over
`STATUS_EMOJIS`; on a match return the glyph prefixed to the text, otherwise
fall back to the unknown glyph. -/
def add_status_emoji (status_code status_text : String) : String :=
  match STATUS_EMOJIS.find? (fun ke => emojiKeyMatches status_code ke.1) with
  | some ke => ke.2 ++ " " ++ status_text
  | none => UNKNOWN_GLYPH ++ " " ++ status_text

/-- The diagnostic lines `add_status_emoji` prints (check_orders.py line 63):
one line exactly when no key matches. -/
def add_status_emoji_diag (status_code : String) : List String :=
  match STATUS_EMOJIS.find? (fun ke => emojiKeyMatches status_code ke.1) with
  | some _ => []
  | none => [WARN_GLYPH ++ "  Unmapped status_code: \x27" ++ status_code ++ "\x27"]

/-- `is_ready_for_pickup` (check_orders.py lines 67-77). -/
def is_ready_for_pickup (status_code : String) : Bool :=
  pyUpper status_code == "DELIVERED"

/-- The full-order-id computation inlined in `fetch_order_status`
(check_orders.py lines 92-96). -/
def build_full_order_id (order_number shop_number : String) : String :=
  if strContainsChar order_number '-' && (pyRemoveChar '-' order_number).length == 12 then
    order_number
  else
    shop_number ++ "-" ++ order_number

/-- The fields `fetch_order_status` reads from the JSON body; a missing field is
the empty string (`data.get(..., "")` semantics, check_orders.py lines 107-108). -/
structure StatusJson where
  summaryStateText : String := ""
  summaryStateCode : String := ""
deriving DecidableEq

/-- `fetch_order_status` (check_orders.py lines 80-116).  The HTTP exchange is
modelled by `resp`: `Except.error msg` stands for any exception raised inside
the `try` block (timeout, transport error, `raise_for_status` on a non-2xx
response, malformed JSON), `Except.ok data` for a successful parsed body.  The
request is a single GET with query parameters `config` and
`build_full_order_id order_number shop_number`. -/
def fetch_order_status (resp : Except String StatusJson)
    (order_number shop_number : String) : String × String :=
  match resp with
  | .error e => ("", WARN_GLYPH ++ " Error: " ++ e)
  | .ok data =>
    let status_code := data.summaryStateCode
    let status_text :=
      if pyEmpty data.summaryStateText then
        (if pyEmpty status_code then "Unknown" else status_code)
      else data.summaryStateText
    (status_code, add_status_emoji status_code status_text)

/- ===== downloader.py ===== -/

/-- `aak` query parameter (downloader.py line 17). -/
def CEWE_AAK : String := "8ccc7bec8f9899140873db6b01254f35cc3a04ed"

/-- `clientVersion` query parameter (downloader.py line 18). -/
def CEWE_CLIENT_VERSION : String := "2.116.1-20251022-gd981d25"

/-- Download API base (downloader.py line 21). -/
def DOWNLOAD_BASE_API_URL : String := "https://api.cewe-myphotos.com/api/imageCD"

/-- Outcome of the `zipfile` extraction attempt inside `download_file`
(downloader.py lines 74-86): success, `BadZipFile`, or any other exception. -/
inductive ExtractOutcome
  | ok
  | badZip
  | otherError (msg : String)
deriving DecidableEq

/-- Environment for one `download_file` call: whether the GET succeeds
(`requests.get` + `raise_for_status`), whether writing the streamed bytes
succeeds, and how extraction goes. -/
structure DlEnv where
  transportOk : Bool
  transportErr : String := ""
  writeOk : Bool := true
  extract : ExtractOutcome := .ok
deriving DecidableEq

/-- Observable outcome of `download_file`: return value plus effects.
`fileOnDisk` records whether the downloaded archive file remains in the output
directory when the call returns (after a successful extraction it is unlinked;
after `BadZipFile` or another extraction failure it is kept). -/
structure DlResult where
  success : Bool
  networkCalls : Nat
  fileOnDisk : Bool
  extracted : Bool
  warnings : List String
deriving DecidableEq

/-- `download_file` (downloader.py lines 24-93), restricted to runs where the
unguarded `int()` parse of the Content-Length header (line 56, outside any
`try`) succeeds; the run where it raises is modelled by `download_fileX`
below.  A transport failure returns `False` before any file is opened; a
write failure returns `False` with the partial file left behind; otherwise
extraction is attempted, any extraction failure is caught, logged as a
warning and the function still returns `True`. -/
def download_file (env : DlEnv) (url : String) (output_path filename : String) :
    DlResult :=
  if env.transportOk = false then
    { success := false, networkCalls := 1, fileOnDisk := false, extracted := false,
      warnings := ["  [ERROR] Could not download file. Details: " ++ env.transportErr] }
  else if env.writeOk = false then
    { success := false, networkCalls := 1, fileOnDisk := true, extracted := false,
      warnings := ["  [ERROR] Could not write to output directory: " ++ output_path] }
  else
    match env.extract with
    | .ok =>
      { success := true, networkCalls := 1, fileOnDisk := false, extracted := true,
        warnings := [] }
    | .badZip =>
      { success := true, networkCalls := 1, fileOnDisk := true, extracted := false,
        warnings := ["  [WARNING] File is not a valid ZIP archive, keeping as-is"] }
    | .otherError m =>
      { success := true, networkCalls := 1, fileOnDisk := true, extracted := false,
        warnings := ["  [WARNING] Could not extract ZIP file: " ++ m] }

/-- The prepared request URL of `download_photos` (downloader.py lines 108-114):
path segments `{order_id}/{secure_id}/download` plus the two fixed query
parameters. -/
def build_download_url (order_id secure_id : String) : String :=
  DOWNLOAD_BASE_API_URL ++ "/" ++ order_id ++ "/" ++ secure_id ++ "/download?aak="
    ++ CEWE_AAK ++ "&clientVersion=" ++ CEWE_CLIENT_VERSION

/-- `download_photos` (downloader.py lines 96-117): builds the URL and filename
and delegates to `download_file`.  Returns the result together with the URL
that was requested. -/
def download_photos (env : DlEnv) (order_id secure_id : String)
    (output_folder : String) : DlResult × String :=
  let url := build_download_url order_id secure_id
  let filename := "photos_" ++ order_id ++ ".zip"
  (download_file env url output_folder filename, url)

/- ===== process_csv_file (check_orders.py lines 119-211) ===== -/

/-- One parsed CSV row, post the external reader: a missing optional column is
the empty string (`row.get(...) or ""` semantics). -/
structure Row where
  order_number : String
  shop_number : String
  identifier : String := ""
  secure_id : String := ""
  cewe_order_id : String := ""
  output_path : String := ""
deriving DecidableEq

instance {ε α : Type} [DecidableEq ε] [DecidableEq α] : DecidableEq (Except ε α) :=
  fun x y =>
    match x, y with
    | .error a, .error b =>
      if h : a = b then .isTrue (by rw [h]) else .isFalse (fun hh => h (Except.error.inj hh))
    | .error _, .ok _ => .isFalse (fun hh => Except.noConfusion hh)
    | .ok _, .error _ => .isFalse (fun hh => Except.noConfusion hh)
    | .ok a, .ok b =>
      if h : a = b then .isTrue (by rw [h]) else .isFalse (fun hh => h (Except.ok.inj hh))

/-- External world for one loop iteration: the status-endpoint response, the
state of the resolved output directory, whether `mkdir` succeeds, and the
download environment.  This record covers the worlds in which the
`any(output_path.iterdir())` call of line 164 does not raise; the raising
world (path exists as a regular file, or unreadable directory) is modelled by
`OrderEnvX` below. -/
structure OrderEnv where
  statusResponse : Except String StatusJson
  dirExists : Bool := false
  dirNonempty : Bool := false
  mkdirOk : Bool := true
  dl : DlEnv := { transportOk := true }
deriving DecidableEq

/-- The dictionary appended to `results` for one row (check_orders.py
lines 173-182 and 199-208). -/
structure ResultRecord where
  order_number : String
  shop_number : String
  identifier : String
  secure_id : String
  cewe_order_id : String
  output_path : String
  status : String
  download_status : String
deriving DecidableEq

/-- Side effects of one loop iteration: the single status GET, whether
`download_photos` was invoked (and its URL and network calls), whether `mkdir`
was attempted, whether the archive file was left on disk, and the sleeps
performed. -/
structure StepEffects where
  statusCalls : Nat
  fetcherCalled : Bool
  downloadCalls : Nat
  mkdirCalled : Bool
  fileOnDisk : Bool
  downloadUrl : Option String
  sleeps : List ℚ
deriving DecidableEq

/-- The `should_download` condition (check_orders.py lines 144-148):
`enable_download and secure_id and is_ready_for_pickup(status_code)`. -/
def should_download (enable_download : Bool) (secure_id status_code : String) :
    Bool :=
  enable_download && !pyEmpty secure_id && is_ready_for_pickup status_code

/-- Output-path resolution (check_orders.py lines 152-161): CSV column first,
else `downloads/{identifier with spaces replaced}`, else the downloads root. -/
def resolve_output_path (csv_output_path ident : String) : String :=
  if !pyEmpty csv_output_path then csv_output_path
  else if !pyEmpty ident then DOWNLOADS_DIR ++ "/" ++ pyReplaceChar ' ' '_' ident
  else DOWNLOADS_DIR

/-- The body of the `for row in reader` loop (check_orders.py lines 133-210),
over the crash-free worlds of `OrderEnv`/`DlEnv`, returning the appended
`ResultRecord` together with the iteration's effects.  Every branch here —
including the folder-creation-failure `continue` path — appends exactly one
record and sleeps exactly once.  The two reachable uncaught-exception sites
(line 164 `iterdir`, downloader line 56 Content-Length parse) are modelled by
`process_rowX` below; `process_rowX_agrees` shows this function is exactly
its restriction to the non-raising worlds. -/
def process_row (enable_download : Bool) (env : OrderEnv) (row : Row) :
    ResultRecord × StepEffects :=
  let order := pyStrip row.order_number
  let shop := pyStrip row.shop_number
  let ident := pyStrip row.identifier
  let secure_id := pyUpper (pyStrip row.secure_id)
  let cewe_order_id := pyStrip row.cewe_order_id
  let csv_output_path := pyStrip row.output_path
  let fetched := fetch_order_status env.statusResponse order shop
  let status_code := fetched.1
  let status := fetched.2
  let base : ResultRecord :=
    { order_number := order, shop_number := shop, identifier := ident,
      secure_id := secure_id, cewe_order_id := cewe_order_id,
      output_path := csv_output_path, status := status, download_status := "" }
  let plainEff : StepEffects :=
    { statusCalls := 1, fetcherCalled := false, downloadCalls := 0,
      mkdirCalled := false, fileOnDisk := false, downloadUrl := none,
      sleeps := [REQUEST_DELAY] }
  if should_download enable_download secure_id status_code then
    let out_path := resolve_output_path csv_output_path ident
    if env.dirExists && env.dirNonempty then
      ({ base with download_status := CHECK_GLYPH ++ " Already downloaded" },
       plainEff)
    else if !env.mkdirOk then
      ({ base with download_status := CROSS_GLYPH ++ " Folder creation failed" },
       { plainEff with mkdirCalled := true })
    else
      let chosen_id := if !pyEmpty cewe_order_id then cewe_order_id else order
      let download_order_id :=
        if !(strContainsChar chosen_id '-') then shop ++ "-" ++ chosen_id
        else chosen_id
      let dl := download_photos env.dl download_order_id secure_id out_path
      ({ base with download_status :=
           if dl.1.success then CHECK_GLYPH ++ " Downloaded"
           else CROSS_GLYPH ++ " Download failed" },
       { statusCalls := 1, fetcherCalled := true, downloadCalls := dl.1.networkCalls,
         mkdirCalled := true, fileOnDisk := dl.1.fileOnDisk,
         downloadUrl := some dl.2, sleeps := [REQUEST_DELAY] })
  else
    (base, plainEff)

/-- `process_csv_file` (check_orders.py lines 119-211), with the per-row
external world supplied alongside each row.  The loop never raises: every
failure path is a branch of `process_row`, so the result list always holds one
entry per input row, in input order. -/
def process_csv_file (enable_download : Bool) (rows : List (Row × OrderEnv)) :
    List (ResultRecord × StepEffects) :=
  rows.map fun re => process_row enable_download re.2 re.1

/-- The `results` list returned by `process_csv_file`. -/
def batch_results (enable_download : Bool) (rows : List (Row × OrderEnv)) :
    List ResultRecord :=
  (process_csv_file enable_download rows).map Prod.fst

/-- All sleep durations performed by one `process_csv_file` run, in order. -/
def batch_sleeps (enable_download : Bool) (rows : List (Row × OrderEnv)) :
    List ℚ :=
  ((process_csv_file enable_download rows).map fun p => p.2.sleeps).flatten

/- ===== uncaught exceptions of the per-order path ===== -/

/-- The two exceptions that can escape the per-order pipeline uncaught and
abort the whole batch:
`valueErrorContentLength` — `int(response.headers.get(..., 0))` at
downloader.py line 56 sits outside any `try`; a successful response whose
Content-Length header is not an integer literal raises `ValueError` there.
`osErrorIterdir` — `any(output_path.iterdir())` at check_orders.py line 164
raises (`NotADirectoryError` / `PermissionError`) when the resolved path
exists as a regular file or as an unreadable directory. -/
inductive PyExn
  | valueErrorContentLength
  | osErrorIterdir
deriving DecidableEq

/-- Download environment with the line-56 axis: whether the Content-Length
header parses as an integer. -/
structure DlEnvX where
  base : DlEnv
  contentLengthOk : Bool := true
deriving DecidableEq

/-- `download_file` with the uncaught line-56 parse included.  Event order in
the source: the guarded GET (lines 42-54, `RequestException` caught, returns
`False`), then the unguarded Content-Length parse (line 56, raises on a
malformed header), then the guarded write and extraction (lines 61-93),
which are exactly the remaining branches of `download_file`. -/
def download_fileX (env : DlEnvX) (url : String) (output_path filename : String) :
    Except PyExn DlResult :=
  if env.base.transportOk = false then
    Except.ok
      { success := false, networkCalls := 1, fileOnDisk := false,
        extracted := false,
        warnings := ["  [ERROR] Could not download file. Details: "
          ++ env.base.transportErr] }
  else if env.contentLengthOk = false then
    Except.error PyExn.valueErrorContentLength
  else
    Except.ok (download_file env.base url output_path filename)

/-- `download_photos` over `download_fileX`. -/
def download_photosX (env : DlEnvX) (order_id secure_id : String)
    (output_folder : String) : Except PyExn (DlResult × String) :=
  let url := build_download_url order_id secure_id
  let filename := "photos_" ++ order_id ++ ".zip"
  match download_fileX env url output_folder filename with
  | Except.error e => Except.error e
  | Except.ok r => Except.ok (r, url)

/-- `OrderEnv` with the line-164 axis: `iterdirOk` says whether
`any(output_path.iterdir())` evaluates without raising (it is only reached
when the path exists); `dirNonempty` is its value when it does not raise. -/
structure OrderEnvX where
  statusResponse : Except String StatusJson
  dirExists : Bool := false
  iterdirOk : Bool := true
  dirNonempty : Bool := false
  mkdirOk : Bool := true
  dl : DlEnvX := { base := { transportOk := true } }
deriving DecidableEq

/-- The crash-free world an `OrderEnvX` projects to. -/
def OrderEnvX.toOrderEnv (e : OrderEnvX) : OrderEnv :=
  { statusResponse := e.statusResponse, dirExists := e.dirExists,
    dirNonempty := e.dirNonempty, mkdirOk := e.mkdirOk, dl := e.dl.base }

/-- The loop body (check_orders.py lines 133-210) with the two uncaught
exception sites modelled: an `Except.error` value is an exception escaping
the iteration — the row's record is never appended and the loop does not
continue.  All other branches are those of `process_row`. -/
def process_rowX (enable_download : Bool) (env : OrderEnvX) (row : Row) :
    Except PyExn (ResultRecord × StepEffects) :=
  let order := pyStrip row.order_number
  let shop := pyStrip row.shop_number
  let ident := pyStrip row.identifier
  let secure_id := pyUpper (pyStrip row.secure_id)
  let cewe_order_id := pyStrip row.cewe_order_id
  let csv_output_path := pyStrip row.output_path
  let fetched := fetch_order_status env.statusResponse order shop
  let status_code := fetched.1
  let status := fetched.2
  let base : ResultRecord :=
    { order_number := order, shop_number := shop, identifier := ident,
      secure_id := secure_id, cewe_order_id := cewe_order_id,
      output_path := csv_output_path, status := status, download_status := "" }
  let plainEff : StepEffects :=
    { statusCalls := 1, fetcherCalled := false, downloadCalls := 0,
      mkdirCalled := false, fileOnDisk := false, downloadUrl := none,
      sleeps := [REQUEST_DELAY] }
  if should_download enable_download secure_id status_code then
    let out_path := resolve_output_path csv_output_path ident
    if env.dirExists && !env.iterdirOk then
      Except.error PyExn.osErrorIterdir
    else if env.dirExists && env.dirNonempty then
      Except.ok
        ({ base with download_status := CHECK_GLYPH ++ " Already downloaded" },
         plainEff)
    else if !env.mkdirOk then
      Except.ok
        ({ base with download_status := CROSS_GLYPH ++ " Folder creation failed" },
         { plainEff with mkdirCalled := true })
    else
      let chosen_id := if !pyEmpty cewe_order_id then cewe_order_id else order
      let download_order_id :=
        if !(strContainsChar chosen_id '-') then shop ++ "-" ++ chosen_id
        else chosen_id
      match download_photosX env.dl download_order_id secure_id out_path with
      | Except.error e => Except.error e
      | Except.ok dl =>
        Except.ok
          ({ base with download_status :=
               if dl.1.success then CHECK_GLYPH ++ " Downloaded"
               else CROSS_GLYPH ++ " Download failed" },
           { statusCalls := 1, fetcherCalled := true,
             downloadCalls := dl.1.networkCalls, mkdirCalled := true,
             fileOnDisk := dl.1.fileOnDisk, downloadUrl := some dl.2,
             sleeps := [REQUEST_DELAY] })
  else
    Except.ok (base, plainEff)

/-- `process_csv_file` with the uncaught exceptions propagating: the loop
stops at the first raising row, the accumulated `results` list is lost with
it, and the exception escapes to the caller. -/
def process_csv_fileX (enable_download : Bool) :
    List (Row × OrderEnvX) → Except PyExn (List (ResultRecord × StepEffects))
  | [] => Except.ok []
  | re :: rest =>
    match process_rowX enable_download re.2 re.1 with
    | Except.error e => Except.error e
    | Except.ok pr =>
      match process_csv_fileX enable_download rest with
      | Except.error e => Except.error e
      | Except.ok l => Except.ok (pr :: l)

/-- Number of per-row records a batch run hands back to the caller: zero when
the run aborts with an exception. -/
def countRecordsX (x : Except PyExn (List (ResultRecord × StepEffects))) : Nat :=
  match x with
  | Except.ok l => l.length
  | Except.error _ => 0

/- ===== sample data for concrete witnesses ===== -/

/-- A successful status body with the terminal code. -/
def sampleDelivered : StatusJson :=
  { summaryStateText := "Delivered", summaryStateCode := "DELIVERED" }

/-- An order row carrying a secure id (fields: order, shop, identifier,
secure id, cewe id, output path). -/
def rowA : Row := ⟨"050842", "541032", "fam", "ZTVLYEQ5", "", ""⟩

/-- An order row without a secure id. -/
def rowB : Row := ⟨"060001", "541032", "eva", "", "", ""⟩

/-- World: status DELIVERED, output directory absent, download succeeds. -/
def envFresh : OrderEnv := { statusResponse := Except.ok sampleDelivered }

/-- World: status DELIVERED, output directory already present and non-empty. -/
def envPresent : OrderEnv :=
  { statusResponse := Except.ok sampleDelivered, dirExists := true,
    dirNonempty := true }

/-- World: the status fetch raises a transport error. -/
def envErr : OrderEnv := { statusResponse := Except.error "connection reset" }

/-- A download environment whose payload is not a valid archive. -/
def dlBadZip : DlEnv := { transportOk := true, writeOk := true, extract := .badZip }

/-- Batch used by the pacing witness: one fresh download, one failing fetch. -/
def rowsW : List (Row × OrderEnv) := [(rowA, envFresh), (rowB, envErr)]

/-- A row whose explicit `output_path` column names an existing regular
file. -/
def rowFile : Row := ⟨"050842", "541032", "fam", "ZTVLYEQ5", "", "photos.txt"⟩

/-- World for `rowFile`: the resolved path exists but iterating it raises
(regular file / unreadable directory) — the uncaught line-164 case. -/
def envIterdirCrash : OrderEnvX :=
  { statusResponse := Except.ok sampleDelivered, dirExists := true,
    iterdirOk := false }

/-- The same position with a readable, non-empty directory instead. -/
def envPresentX : OrderEnvX :=
  { statusResponse := Except.ok sampleDelivered, dirExists := true,
    iterdirOk := true, dirNonempty := true }

/-- Crash-axis-free world with a fresh output directory. -/
def envFreshX : OrderEnvX := { statusResponse := Except.ok sampleDelivered }

/-- World whose download response carries a malformed Content-Length header
(e.g. a proxy folding duplicates into "1234, 1234") — the uncaught line-56
case. -/
def envClCrash : OrderEnvX :=
  { statusResponse := Except.ok sampleDelivered,
    dl := { base := { transportOk := true }, contentLengthOk := false } }

/-- The aborting batch: the crashing row followed by a healthy row. -/
def rowsCrash : List (Row × OrderEnvX) :=
  [(rowFile, envIterdirCrash), (rowA, envFreshX)]

/-- The same batch with the crash axis off. -/
def rowsOk : List (Row × OrderEnvX) :=
  [(rowFile, envPresentX), (rowA, envFreshX)]

/-- A batch aborted by the malformed Content-Length header. -/
def rowsCrashCL : List (Row × OrderEnvX) := [(rowA, envClCrash)]

/- ===== theorems ===== -/

/-- `List.find?` returns the element at the first index whose predicate holds. -/
theorem list_find_first {α : Type} (p : α → Bool) (l : List α) :
    ∀ (i : Nat) (hi : i < l.length), p (l.get ⟨i, hi⟩) = true →
      (∀ (j : Nat) (hj : j < l.length), j < i → p (l.get ⟨j, hj⟩) = false) →
      l.find? p = some (l.get ⟨i, hi⟩) := by
  induction l with
  | nil => intro i hi; exact absurd hi (by simp)
  | cons a t ih =>
    intro i hi hp hmin
    cases i with
    | zero =>
      simp only [List.get] at hp
      simp [List.find?, hp]
    | succ n =>
      have ha : p a = false := hmin 0 (by simp) (Nat.succ_pos n)
      simp only [List.get] at hp ⊢
      rw [List.find?_cons_of_neg _ (by simp [ha])]
      exact ih n (Nat.lt_of_succ_lt_succ hi) hp
        (fun j hj hlt => hmin (j + 1) (by simpa using Nat.succ_lt_succ hj)
          (Nat.succ_lt_succ hlt))

/-- C2: `is_ready_for_pickup s` holds exactly when `s` case-normalized equals
"DELIVERED"; in particular it accepts "DELIVERED" and "delivered" and rejects
"DELIVERED_PARTIAL" (exact match, not substring). -/
theorem claim_c2 :
    (∀ s : String, is_ready_for_pickup s = true ↔ pyUpper s = "DELIVERED")
    ∧ is_ready_for_pickup "DELIVERED" = true
    ∧ is_ready_for_pickup "delivered" = true
    ∧ is_ready_for_pickup "DELIVERED_PARTIAL" = false := by
  refine ⟨fun s => ?_, by decide, by decide, by decide⟩
  simp [is_ready_for_pickup]

/-- C4: the full-order-id builder keeps an order number that contains a hyphen
and has exactly 12 characters once hyphens are removed; any other order number
is composed as shop-order. -/
theorem claim_c4 (order shop : String) :
    (strContainsChar order '-' = true →
      (pyRemoveChar '-' order).length = 12 →
      build_full_order_id order shop = order)
    ∧ ((strContainsChar order '-' = false ∨
        (pyRemoveChar '-' order).length ≠ 12) →
      build_full_order_id order shop = shop ++ "-" ++ order) := by
  constructor
  · intro h1 h2
    simp [build_full_order_id, h1, h2]
  · intro h
    rcases h with h | h
    · simp [build_full_order_id, h]
    · simp [build_full_order_id, h]

/-- C4 witness: a 12-digit hyphenated id is kept verbatim; a bare order number
is composed with the shop number. -/
theorem claim_c4_witness :
    build_full_order_id "541032-050842" "999999" = "541032-050842"
    ∧ build_full_order_id "050842" "541032" = "541032-050842" :=
  ⟨(claim_c4 "541032-050842" "999999").1 (by decide) (by decide),
   (claim_c4 "050842" "541032").2 (Or.inr (by decide))⟩

/-- C7: when the transfer completes and the bytes are written but are not a
valid archive, `download_file` still returns success, keeps the raw file on
disk, and surfaces only the non-fatal warning. -/
theorem claim_c7 (env : DlEnv) (url outdir fn : String)
    (ht : env.transportOk = true) (hw : env.writeOk = true)
    (he : env.extract = ExtractOutcome.badZip) :
    (download_file env url outdir fn).success = true
    ∧ (download_file env url outdir fn).fileOnDisk = true
    ∧ (download_file env url outdir fn).warnings =
        ["  [WARNING] File is not a valid ZIP archive, keeping as-is"] := by
  simp [download_file, ht, hw, he]

/-- C7 witness: concrete invalid-archive download still succeeds and keeps the
raw file. -/
theorem claim_c7_witness :
    (download_file dlBadZip "u" "d" "f.zip").success = true
    ∧ (download_file dlBadZip "u" "d" "f.zip").fileOnDisk = true
    ∧ (download_file dlBadZip "u" "d" "f.zip").warnings =
        ["  [WARNING] File is not a valid ZIP archive, keeping as-is"] :=
  claim_c7 dlBadZip "u" "d" "f.zip" rfl rfl rfl

/-- C8: glyph selection is deterministic first-match over the fixed ordered
key list with case-insensitive substring matching; with no matching key the
result falls back to the unknown glyph and a diagnostic is logged. -/
theorem claim_c8 (code text : String) :
    (add_status_emoji code text = add_status_emoji code text)
    ∧ (∀ i : Fin STATUS_EMOJIS.length,
        emojiKeyMatches code (STATUS_EMOJIS.get i).1 = true →
        (∀ j : Fin STATUS_EMOJIS.length, (j : Nat) < (i : Nat) →
          emojiKeyMatches code (STATUS_EMOJIS.get j).1 = false) →
        add_status_emoji code text = (STATUS_EMOJIS.get i).2 ++ " " ++ text)
    ∧ ((∀ ke ∈ STATUS_EMOJIS, emojiKeyMatches code ke.1 = false) →
        add_status_emoji code text = UNKNOWN_GLYPH ++ " " ++ text
        ∧ add_status_emoji_diag code =
            [WARN_GLYPH ++ "  Unmapped status_code: \x27" ++ code ++ "\x27"]) := by
  refine ⟨rfl, ?_, ?_⟩
  · intro i hp hmin
    have hf := list_find_first (fun ke => emojiKeyMatches code ke.1)
      STATUS_EMOJIS i.val i.isLt hp (fun j hj hlt => hmin ⟨j, hj⟩ hlt)
    unfold add_status_emoji
    rw [hf]
  · intro hall
    have hf : STATUS_EMOJIS.find? (fun ke => emojiKeyMatches code ke.1) = none :=
      List.find?_eq_none.mpr (fun x hx => by simp [hall x hx])
    constructor
    · unfold add_status_emoji
      rw [hf]
    · unfold add_status_emoji_diag
      rw [hf]

/-- C8 witness: "delivered" picks the DELIVERED glyph (third key, first match);
an unmapped code falls back to the unknown glyph with a diagnostic. -/
theorem claim_c8_witness :
    add_status_emoji "delivered" "Done" = CHECK_GLYPH ++ " Done"
    ∧ add_status_emoji "WEIRD" "t" = UNKNOWN_GLYPH ++ " t" :=
  ⟨(claim_c8 "delivered" "Done").2.1 ⟨2, by decide⟩ (by decide) (by decide),
   ((claim_c8 "WEIRD" "t").2.2 (by decide)).1⟩

/-- C1: a download is attempted (download-status field non-empty) exactly when
`enable_download` holds, the trimmed secure id is non-empty, and the fetched
status code passes `is_ready_for_pickup`; when the conjunction fails, the
field stays empty and the archive fetcher is never invoked. -/
theorem claim_c1 (ed : Bool) (env : OrderEnv) (row : Row) :
    ((process_row ed env row).1.download_status ≠ "" ↔
      should_download ed (pyUpper (pyStrip row.secure_id))
        (fetch_order_status env.statusResponse (pyStrip row.order_number)
          (pyStrip row.shop_number)).1 = true)
    ∧ (should_download ed (pyUpper (pyStrip row.secure_id))
        (fetch_order_status env.statusResponse (pyStrip row.order_number)
          (pyStrip row.shop_number)).1 = false →
      (process_row ed env row).1.download_status = ""
      ∧ (process_row ed env row).2.fetcherCalled = false
      ∧ (process_row ed env row).2.downloadCalls = 0) := by
  cases hsd : should_download ed (pyUpper (pyStrip row.secure_id))
      (fetch_order_status env.statusResponse (pyStrip row.order_number)
        (pyStrip row.shop_number)).1 with
  | false =>
    refine ⟨?_, fun _ => ?_⟩
    · simp [process_row, hsd]
    · simp [process_row, hsd]
  | true =>
    refine ⟨iff_of_true ?_ rfl, fun hfalse => absurd hfalse (by decide)⟩
    show (process_row ed env row).1.download_status ≠ ""
    simp only [process_row, hsd, if_true]
    split_ifs <;>
      first
      | exact (by decide : CHECK_GLYPH ++ " Already downloaded" ≠ "")
      | exact (by decide : CROSS_GLYPH ++ " Folder creation failed" ≠ "")
      | exact (by decide : CHECK_GLYPH ++ " Downloaded" ≠ "")
      | exact (by decide : CROSS_GLYPH ++ " Download failed" ≠ "")

/-- C1 witness: with downloads enabled, the secure-id order attempts the
download and the secure-id-less order does not. -/
theorem claim_c1_witness :
    (process_row true envFresh rowA).1.download_status ≠ ""
    ∧ (process_row true envFresh rowB).1.download_status = ""
    ∧ (process_row true envFresh rowB).2.fetcherCalled = false :=
  ⟨(claim_c1 true envFresh rowA).1.mpr (by decide),
   ((claim_c1 true envFresh rowB).2 (by decide)).1,
   ((claim_c1 true envFresh rowB).2 (by decide)).2.1⟩

/-- C3: when the download is due but the resolved output directory already
exists and is non-empty, the step reports "Already downloaded" and performs no
download network call, no mkdir, and no filesystem write. -/
theorem claim_c3 (ed : Bool) (env : OrderEnv) (row : Row)
    (hsd : should_download ed (pyUpper (pyStrip row.secure_id))
      (fetch_order_status env.statusResponse (pyStrip row.order_number)
        (pyStrip row.shop_number)).1 = true)
    (hex : env.dirExists = true) (hne : env.dirNonempty = true) :
    (process_row ed env row).1.download_status = CHECK_GLYPH ++ " Already downloaded"
    ∧ (process_row ed env row).2.fetcherCalled = false
    ∧ (process_row ed env row).2.downloadCalls = 0
    ∧ (process_row ed env row).2.mkdirCalled = false
    ∧ (process_row ed env row).2.fileOnDisk = false := by
  simp [process_row, hsd, hex, hne]

/-- C3 witness: concrete already-present directory yields "Already downloaded"
with no fetcher call. -/
theorem claim_c3_witness :
    (process_row true envPresent rowA).1.download_status =
      CHECK_GLYPH ++ " Already downloaded"
    ∧ (process_row true envPresent rowA).2.fetcherCalled = false
    ∧ (process_row true envPresent rowA).2.downloadCalls = 0
    ∧ (process_row true envPresent rowA).2.mkdirCalled = false
    ∧ (process_row true envPresent rowA).2.fileOnDisk = false :=
  claim_c3 true envPresent rowA (by decide) rfl rfl

/-- When the Content-Length parse succeeds, `download_fileX` returns exactly
what `download_file` computes in every world. -/
theorem download_fileX_ok (env : DlEnvX) (hcl : env.contentLengthOk = true)
    (url output_path filename : String) :
    download_fileX env url output_path filename =
      Except.ok (download_file env.base url output_path filename) := by
  cases htr : env.base.transportOk with
  | false => simp [download_fileX, download_file, hcl, htr]
  | true => simp [download_fileX, hcl, htr]

/-- `process_rowX` restricted to worlds where neither uncaught-exception site
fires is exactly `process_row`: the crash-free model is the faithful
projection of the full one. -/
theorem process_rowX_agrees (ed : Bool) (env : OrderEnvX) (row : Row)
    (hit : env.iterdirOk = true) (hcl : env.dl.contentLengthOk = true) :
    process_rowX ed env row = Except.ok (process_row ed env.toOrderEnv row) := by
  simp only [process_rowX, process_row, download_photosX, download_photos,
    OrderEnvX.toOrderEnv, hit, download_fileX_ok env.dl hcl, Bool.not_true,
    Bool.and_false]
  split_ifs <;> first | rfl | assumption

/-- C5: the claim fails on the code — the batch orchestrator can raise for a
per-order failure and abort.  With the two uncaught-exception sites modelled
(the `any(output_path.iterdir())` call on an existing non-directory path,
check_orders.py line 164, and the unguarded Content-Length parse,
downloader.py line 56), a two-row batch whose first row names an existing
regular file as its output path raises instead of returning one record per
row: the run yields an exception and zero records, the second row never
processed, while the identical batch with a readable directory returns both
records; a malformed Content-Length header aborts a batch the same way.  The
spec's stated propagation policy (every failure converted to a data value,
nothing escapes) is the evident intent, so the code, not the claim, is
wrong. -/
theorem claim_c5 :
    process_csv_fileX true rowsCrash = Except.error PyExn.osErrorIterdir
    ∧ rowsCrash.length = 2
    ∧ countRecordsX (process_csv_fileX true rowsCrash) = 0
    ∧ countRecordsX (process_csv_fileX true rowsOk) = 2
    ∧ process_csv_fileX true rowsCrashCL =
        Except.error PyExn.valueErrorContentLength :=
  ⟨by decide, rfl, by decide, by decide, by decide⟩

/-- C6: a status-fetch failure yields an empty raw code and a warning-glyph
error label; the orchestrator still records that order's result (with one
status call, no retry) and continues with the remaining rows. -/
theorem claim_c6 (e : String) (order shop : String) (ed : Bool)
    (env : OrderEnv) (row : Row) (rest : List (Row × OrderEnv)) :
    fetch_order_status (Except.error e) order shop =
      ("", WARN_GLYPH ++ " Error: " ++ e)
    ∧ (env.statusResponse = Except.error e →
        (process_row ed env row).1.status = WARN_GLYPH ++ " Error: " ++ e
        ∧ (process_row ed env row).1.order_number = pyStrip row.order_number
        ∧ (process_row ed env row).2.statusCalls = 1
        ∧ process_csv_file ed ((row, env) :: rest) =
            process_row ed env row :: process_csv_file ed rest) := by
  refine ⟨rfl, fun herr => ?_⟩
  have hrf : is_ready_for_pickup "" = false := rfl
  have hsd0 : should_download ed (pyUpper (pyStrip row.secure_id)) "" = false := by
    simp [should_download, hrf]
  refine ⟨?_, ?_, ?_, ?_⟩
  · simp [process_row, herr, fetch_order_status, hsd0]
  · simp [process_row, herr, fetch_order_status, hsd0]
  · simp [process_row, herr, fetch_order_status, hsd0]
  · simp [process_csv_file]

/-- C6 witness: a concrete connection-reset fetch failure is recorded and the
batch proceeds. -/
theorem claim_c6_witness :
    fetch_order_status (Except.error "connection reset") "050842" "541032" =
      ("", WARN_GLYPH ++ " Error: " ++ "connection reset")
    ∧ (process_row true envErr rowB).1.status =
        WARN_GLYPH ++ " Error: " ++ "connection reset"
    ∧ (process_row true envErr rowB).2.statusCalls = 1
    ∧ process_csv_file true [(rowB, envErr), (rowA, envFresh)] =
        process_row true envErr rowB :: process_csv_file true [(rowA, envFresh)] := by
  have h := claim_c6 "connection reset" "050842" "541032" true envErr rowB
    [(rowA, envFresh)]
  exact ⟨h.1, (h.2 rfl).1, (h.2 rfl).2.2.1, (h.2 rfl).2.2.2⟩

/-- Every branch of the loop body performs exactly one sleep of
`REQUEST_DELAY`. -/
theorem process_row_sleeps (ed : Bool) (env : OrderEnv) (row : Row) :
    (process_row ed env row).2.sleeps = [REQUEST_DELAY] := by
  simp only [process_row]
  split_ifs <;> rfl

/-- C9: every processed order incurs exactly one `REQUEST_DELAY` pause, so a
batch of N rows sleeps N times for a total of N × REQUEST_DELAY. -/
theorem claim_c9 (ed : Bool) (rows : List (Row × OrderEnv)) :
    (batch_sleeps ed rows).length = rows.length
    ∧ (∀ d ∈ batch_sleeps ed rows, d = REQUEST_DELAY)
    ∧ (batch_sleeps ed rows).sum = (rows.length : ℚ) * REQUEST_DELAY := by
  induction rows with
  | nil => simp [batch_sleeps, process_csv_file]
  | cons r t ih =>
    have hb : batch_sleeps ed (r :: t) = REQUEST_DELAY :: batch_sleeps ed t := by
      simp [batch_sleeps, process_csv_file, process_row_sleeps]
    refine ⟨?_, ?_, ?_⟩
    · rw [hb]
      simp [ih.1]
    · rw [hb]
      intro d hd
      rcases List.mem_cons.mp hd with h | h
      · exact h
      · exact ih.2.1 d h
    · rw [hb]
      simp only [List.sum_cons, ih.2.2, List.length_cons]
      push_cast
      ring

/-- C9 witness: a two-row batch sleeps twice for 2 × REQUEST_DELAY total. -/
theorem claim_c9_witness :
    (batch_sleeps true rowsW).length = 2
    ∧ (batch_sleeps true rowsW).sum = (2 : ℚ) * REQUEST_DELAY
    ∧ REQUEST_DELAY = REQUEST_DELAY := by
  have h := claim_c9 true rowsW
  refine ⟨h.1, ?_, h.2.1 REQUEST_DELAY ?_⟩
  · rw [h.2.2]
    norm_num [rowsW]
  · rw [show batch_sleeps true rowsW = [REQUEST_DELAY, REQUEST_DELAY] from rfl]
    exact List.mem_cons_self _ _

/-- C10: the secure id is trimmed and upper-cased before use — it is stored in
that form, the whole step depends on the raw column only through that form
(so a lower-case input yields the identical download request), and any
download URL issued embeds exactly that form. -/
theorem claim_c10 (ed : Bool) (env : OrderEnv) (row : Row) :
    ((process_row ed env row).1.secure_id = pyUpper (pyStrip row.secure_id))
    ∧ (∀ s' : String, pyUpper (pyStrip s') = pyUpper (pyStrip row.secure_id) →
        process_row ed env { row with secure_id := s' } = process_row ed env row)
    ∧ (∀ url : String, (process_row ed env row).2.downloadUrl = some url →
        ∃ oid : String, url = build_download_url oid (pyUpper (pyStrip row.secure_id))) := by
  refine ⟨?_, ?_, ?_⟩
  · simp only [process_row]
    split_ifs <;> rfl
  · intro s' hs
    simp only [process_row]
    rw [hs]
  · intro url hurl
    simp only [process_row, download_photos] at hurl
    split_ifs at hurl <;> simp at hurl <;> exact ⟨_, hurl.symm⟩

/-- C10 witness: a lower-case secure id produces the same step outcome as its
upper-case form, and the issued URL embeds the normalized id. -/
theorem claim_c10_witness :
    process_row true envFresh { rowA with secure_id := "ztvlyeq5" } =
      process_row true envFresh rowA
    ∧ (process_row true envFresh rowA).1.secure_id = "ZTVLYEQ5"
    ∧ ∃ oid : String,
        build_download_url "541032-050842" "ZTVLYEQ5" =
          build_download_url oid (pyUpper (pyStrip rowA.secure_id)) := by
  have h := claim_c10 true envFresh rowA
  refine ⟨h.2.1 "ztvlyeq5" (by decide), ?_, h.2.2 _ (by decide)⟩
  rw [h.1]
  decide

end DmFoto
